import Mathlib

/-!
Verification development for the log-analysis pipeline of this repository
(model_loader.py and api_server.py).  Log text is modelled as `List Char`.
The catalog regexes all have the shape of alternations of literal chunks
separated by the wildcard gap, so a pattern is embedded as a list of
alternatives, each alternative a list of literal chunks; the wildcard does
not cross a newline, hence a match lives inside one newline-free segment.
The classification model (tokenizer, forward pass, softmax, float
formatting) is an external floating-point component; it is modelled as an
abstract parameter mapping the context text to either a formatted
confidence string or an inference error.
-/

/-- Lowercasing as applied by text.lower() in the source (ASCII range). -/
def lowerL (t : List Char) : List Char := t.map Char.toLower

/-- Whitespace set stripped by str.strip in the source. -/
def isSpace (c : Char) : Bool :=
  c = ' ' || c = '\t' || c = '\n' || c = '\r' || c.val = 11 || c.val = 12

/-- Delimiter class of the split at model_loader.py line 55. -/
def isBreak (c : Char) : Bool := c = '\n' || c = '\r'

/-- If the first list is a leading piece of the second, the rest of the
second list; otherwise none. -/
def stripChunk : List Char → List Char → Option (List Char)
  | [], t => some t
  | _ :: _, [] => none
  | a :: ps, c :: ts => if a = c then stripChunk ps ts else none

/-- Substring test: the Python `needle in haystack` operator. -/
def containsSub (p : List Char) : List Char → Bool
  | [] => p.isEmpty
  | c :: ts => (stripChunk p (c :: ts)).isSome || containsSub p ts

/-- Suffix of the text after the first occurrence of the chunk, if any. -/
def dropAfterFirst (p : List Char) : List Char → Option (List Char)
  | [] => stripChunk p []
  | c :: ts =>
    match stripChunk p (c :: ts) with
    | some r => some r
    | none => dropAfterFirst p ts

/-- One regex alternative of the catalog: its literal chunks must occur in
order, each next chunk searched after the previous one (the wildcard gaps
between them). -/
def matchChunks : List (List Char) → List Char → Bool
  | [], _ => true
  | p :: ps, t =>
    match dropAfterFirst p t with
    | some r => matchChunks ps r
    | none => false

/-- Split on each character of the given class, keeping empty pieces. -/
def splitOnClass (b : Char → Bool) : List Char → List (List Char)
  | [] => [[]]
  | c :: cs =>
    let r := splitOnClass b cs
    if b c then [] :: r
    else
      match r with
      | [] => [[c]]
      | h :: t => (c :: h) :: t

/-- A catalog signature: alternatives of literal chunk sequences. -/
abbrev Pattern := List (List (List Char))

/-- Embedding of re.search for the catalog signatures.  The wildcard of the
source regexes does not match a newline and no literal chunk holds one, so
a match is an in-order occurrence of the chunks of one alternative inside a
single newline-free segment of the text. -/
def reSearch (p : Pattern) (t : List Char) : Bool :=
  p.any fun alt => (splitOnClass (fun c => c = '\n') t).any fun seg => matchChunks alt seg

/-- ERROR_PATTERNS of model_loader.py lines 12 to 50, in source order. -/
def ERROR_PATTERNS : List (Pattern × List Char) := [
  ([["helm".data, "release".data, "failed".data]], "Helm release installation or upgrade failed".data),
  ([["chart".data, "requires".data, "kubernetes".data, "version".data]], "Kubernetes version compatibility issue".data),
  ([["failed".data, "to".data, "install".data, "chart".data]], "Chart installation failure".data),
  ([["helm".data, "upgrade".data, "failed".data]], "Helm upgrade failure".data),
  ([["chart".data, "not".data, "found".data]], "Chart not found in repository".data),
  ([["kots".data, "install".data, "failed".data]], "KOTS installation failure".data),
  ([["kots".data, "upgrade".data, "failed".data]], "KOTS upgrade failure".data),
  ([["kots".data, "version".data, "incompatible".data]], "KOTS version compatibility issue".data),
  ([["kots".data, "config".data, "invalid".data]], "Invalid KOTS configuration".data),
  ([["kots".data, "license".data, "invalid".data]], "Invalid or expired KOTS license".data),
  ([["image".data, "pull".data, "failed".data]], "Container image pull failure".data),
  ([["pod".data, "crash".data, "loop".data]], "Pod crash loop detected".data),
  ([["insufficient".data, "cpu".data], ["insufficient".data, "memory".data]], "Resource constraints".data),
  ([["persistentvolumeclaim".data, "not".data, "found".data]], "Storage/PVC issue".data),
  ([["service".data, "not".data, "found".data]], "Service discovery issue".data),
  ([["configmap".data, "not".data, "found".data]], "Configuration issue".data),
  ([["secret".data, "not".data, "found".data]], "Secret/credential issue".data),
  ([["node".data, "not".data, "ready".data]], "Node health issue".data),
  ([["network".data, "policy".data, "denied".data]], "Network policy restriction".data),
  ([["rbac".data, "forbidden".data]], "RBAC permission issue".data),
  ([["connection".data, "refused".data]], "Network connectivity issue".data),
  ([["permission".data, "denied".data]], "Access control or permissions issue".data),
  ([["timeout".data]], "Resource exhaustion or network latency".data),
  ([["out of memory".data]], "Resource exhaustion".data),
  ([["not found".data]], "Missing resource or configuration".data),
  ([["already exists".data]], "Resource conflict".data),
  ([["invalid".data, "format".data]], "Data format or syntax error".data),
  ([["authentication".data, "failed".data]], "Credentials or authentication issue".data),
  ([["dependency".data, "missing".data]], "Missing dependency or package".data),
  ([["port".data, "in use".data]], "Resource conflict - port already in use".data)]

/-- str.strip of the source: drop the whitespace at both ends. -/
def strip (l : List Char) : List Char :=
  ((l.dropWhile isSpace).reverse.dropWhile isSpace).reverse

/-- Cleaned line sequence of model_loader.py line 55: split the text on
newline and carriage-return runs, strip each piece, drop the empty ones.
Splitting on each break character one at a time differs from splitting on
runs only by extra empty pieces, which the filter removes, so the resulting
line list is the same. -/
def cleanLines (text : List Char) : List (List Char) :=
  ((splitOnClass isBreak text).map strip).filter (fun l => !l.isEmpty)

/-- Fault keyword set of model_loader.py line 60. -/
def faultKeywords : List (List Char) :=
  ["error".data, "exception".data, "failed".data, "fatal".data, "critical".data, "warning".data]

/-- Test of model_loader.py line 60: some fault keyword occurs in the
lowercased line. -/
def hasFaultKeyword (line : List Char) : Bool :=
  faultKeywords.any fun k => containsSub k (lowerL line)

/-- Python slice lines[max(0, i-2) : min(len(lines), i+3)] of
model_loader.py lines 62 to 64 (truncated subtraction clips at zero). -/
def windowSlice (lines : List (List Char)) (i : Nat) : List (List Char) :=
  (lines.drop (i - 2)).take (min lines.length (i + 3) - (i - 2))

/-- Concatenation of the pieces appended by a Python loop with extend. -/
def concatMap (f : Nat → List (List Char)) : List Nat → List (List Char)
  | [] => []
  | i :: is => f i ++ concatMap f is

/-- extract_error_context of model_loader.py lines 52 to 67. -/
def extract_error_context (text : List Char) : List (List Char) :=
  let lines := cleanLines text
  let error_lines := concatMap
    (fun i => if hasFaultKeyword (lines.getD i []) then windowSlice lines i else [])
    (List.range lines.length)
  if error_lines.isEmpty then lines else error_lines

/-- identify_patterns of model_loader.py lines 69 to 75: the loop appends
each catalog entry whose signature is found in the lowercased text, in
catalog iteration order. -/
def identify_patterns (text : List Char) : List (Pattern × List Char) :=
  ERROR_PATTERNS.filter fun e => reSearch e.1 (lowerL text)

/-- get_next_steps of model_loader.py lines 77 to 127. -/
def get_next_steps (root_cause : List Char) : List (List Char) :=
  if containsSub "helm".data (lowerL root_cause) then
    ["Check Helm chart version compatibility".data,
     "Verify Helm repository access".data,
     "Review Helm values and configuration".data,
     "Check Kubernetes version requirements".data]
  else if containsSub "kots".data (lowerL root_cause) then
    ["Verify KOTS license validity".data,
     "Check KOTS version compatibility".data,
     "Review KOTS configuration".data,
     "Check application requirements".data]
  else if containsSub "kubernetes".data (lowerL root_cause) then
    ["Check Kubernetes cluster health".data,
     "Verify resource availability".data,
     "Review pod and service status".data,
     "Check network policies".data]
  else if containsSub "network".data (lowerL root_cause) then
    ["Check network connectivity".data,
     "Verify firewall settings".data,
     "Confirm service is running on the expected port".data,
     "Check network policies".data]
  else if containsSub "permission".data (lowerL root_cause) then
    ["Verify user permissions".data,
     "Check RBAC settings".data,
     "Review security contexts".data,
     "Check service account permissions".data]
  else if containsSub "resource".data (lowerL root_cause) then
    ["Check system resources (CPU, memory, disk)".data,
     "Review resource limits and quotas".data,
     "Consider scaling resources".data,
     "Check node capacity".data]
  else
    ["Review the error context for more details".data,
     "Check system logs for related errors".data,
     "Verify configuration settings".data,
     "Check application status".data]

/-- Result record of analyze_log (model_loader.py lines 168 to 173). -/
structure Diagnosis where
  root_cause : List Char
  confidence : List Char
  next_steps : List (List Char)
  context : List Char
deriving DecidableEq, Repr, Inhabited

/-- Label test of model_loader.py line 159: the lowercased root-cause label
holds helm or kots. -/
def hkLabel (label : List Char) : Bool :=
  containsSub "helm".data (lowerL label) || containsSub "kots".data (lowerL label)

/-- analyze_log of model_loader.py lines 129 to 173.  The classifier chain
(tokenizer, model forward pass, softmax, two-decimal formatting) is passed
in as clf; the source wraps it in no exception handler, so a classifier
error leaves analyze_log as an error (lines 146 to 153 run before the
root-cause block). -/
def analyze_log (clf : List Char → Except (List Char) (List Char)) (text : List Char) :
    Except (List Char) Diagnosis :=
  let error_context := extract_error_context text
  let context_text := List.intercalate ['\n'] error_context
  let pattern_matches := identify_patterns text
  match clf context_text with
  | .error e => .error e
  | .ok confidence =>
    let root_cause :=
      match pattern_matches with
      | [] => "Unknown issue".data
      | m0 :: _ =>
        match pattern_matches.filter (fun m => hkLabel m.2) with
        | h :: _ => h.2
        | [] => m0.2
    .ok { root_cause := root_cause,
          confidence := confidence,
          next_steps := get_next_steps root_cause,
          context := context_text }

/-- Remediation keyword family of get_next_steps, in source priority order. -/
def remediationKeywords : List (List Char) :=
  ["helm".data, "kots".data, "kubernetes".data, "network".data,
   "permission".data, "resource".data]

/-- One analyzed log file as assembled by the per-source endpoints of
api_server.py: a filename and the Diagnosis of its text. -/
structure LogAnalysis where
  filename : List Char
  analysis : Diagnosis
deriving DecidableEq, Repr, Inhabited

/-- Issue record appended by analyze_all_logs (api_server.py lines 186 to
247).  The warning dicts of the source omit the context key; that absence
is modelled as none. -/
structure IssueRecord where
  source : List Char
  file : List Char
  issue : List Char
  confidence : List Char
  next_steps : List (List Char)
  context : Option (List Char)
deriving DecidableEq, Repr, Inhabited

/-- system_status dict of api_server.py lines 253 to 258. -/
structure SystemStatus where
  status : List Char
  critical_issues_count : Nat
  warnings_count : Nat
  log_sources_available : Nat
deriving DecidableEq, Repr, Inhabited

/-- ConsolidatedAnalysisResponse of api_server.py (timestamp, taken from
the wall clock, is external and omitted). -/
structure AggregateReport where
  critical_issues : List IssueRecord
  warnings : List IssueRecord
  system_status : SystemStatus
  log_sources_analyzed : List (List Char)
deriving DecidableEq, Repr, Inhabited

/-- Criticality test of api_server.py lines 186, 209 and 231. -/
def isCriticalCause (rc : List Char) : Bool :=
  containsSub "error".data (lowerL rc) || containsSub "fail".data (lowerL rc)

/-- Critical-issue dict of api_server.py lines 187 to 194. -/
def criticalRecord (source : List Char) (log : LogAnalysis) : IssueRecord :=
  { source := source, file := log.filename, issue := log.analysis.root_cause,
    confidence := log.analysis.confidence, next_steps := log.analysis.next_steps,
    context := some log.analysis.context }

/-- Warning dict of api_server.py lines 196 to 202 (no context key). -/
def warningRecord (source : List Char) (log : LogAnalysis) : IssueRecord :=
  { source := source, file := log.filename, issue := log.analysis.root_cause,
    confidence := log.analysis.confidence, next_steps := log.analysis.next_steps,
    context := none }

/-- The per-source loop of analyze_all_logs: each log of the source is
appended to the critical list when its root cause passes the criticality
test, to the warning list otherwise, in iteration order. -/
def partitionLogs (source : List Char) (logs : List LogAnalysis) :
    List IssueRecord × List IssueRecord :=
  ((logs.filter fun l => isCriticalCause l.analysis.root_cause).map (criticalRecord source),
   (logs.filter fun l => !isCriticalCause l.analysis.root_cause).map (warningRecord source))

/-- analyze_all_logs of api_server.py lines 170 to 266, shallowly embedded
over the already-analyzed per-source results: embedded and pods are the
lists returned by the two collection endpoints, syslog is some result when
the syslog endpoint succeeds and none when it raises its HTTPException
(the source then skips it).  A source name enters analyzed_sources exactly
when the source contributed at least one analyzed record. -/
def analyze_all_logs (embedded pods : List LogAnalysis) (syslog : Option LogAnalysis) :
    AggregateReport :=
  let p1 := partitionLogs "embedded-cluster".data embedded
  let p2 := partitionLogs "pods".data pods
  let p3 := match syslog with
    | some s => partitionLogs "syslog".data [s]
    | none => ([], [])
  let critical_issues := p1.1 ++ p2.1 ++ p3.1
  let warnings := p1.2 ++ p2.2 ++ p3.2
  let analyzed_sources :=
    (if embedded.isEmpty then [] else ["embedded-cluster".data]) ++
    (if pods.isEmpty then [] else ["pods".data]) ++
    (match syslog with
     | some _ => ["syslog".data]
     | none => [])
  { critical_issues := critical_issues,
    warnings := warnings,
    system_status :=
      { status := if critical_issues.isEmpty then "healthy".data else "unhealthy".data,
        critical_issues_count := critical_issues.length,
        warnings_count := warnings.length,
        log_sources_available := analyzed_sources.length },
    log_sources_analyzed := analyzed_sources }

/-- Helper: a loop whose every iteration appends nothing yields nothing. -/
theorem concatMap_eq_nil (f : Nat → List (List Char)) (l : List Nat)
    (h : ∀ i ∈ l, f i = []) : concatMap f l = [] := by
  induction l with
  | nil => rfl
  | cons i is ih =>
    simp only [concatMap, h i (List.mem_cons_self i is),
      ih fun j hj => h j (List.mem_cons_of_mem i hj), List.nil_append]

/-- Helper: the catalog holds no duplicate entry. -/
theorem ERROR_PATTERNS_nodup : ERROR_PATTERNS.Nodup := by decide

/-- C3: for every input text, identify_patterns lists its matched
(signature, root_cause) pairs in catalog iteration order (it is a sublist
of ERROR_PATTERNS), each catalog entry appears at most once however often
its signature occurs in the text (the result has no duplicates), and an
entry is listed exactly when it is a catalog entry whose signature is found
in the lowercased text. -/
theorem identify_patterns_catalog_order (text : List Char) :
    (identify_patterns text).Sublist ERROR_PATTERNS ∧
    (identify_patterns text).Nodup ∧
    ∀ e, e ∈ identify_patterns text ↔
      e ∈ ERROR_PATTERNS ∧ reSearch e.1 (lowerL text) = true := by
  refine ⟨List.filter_sublist _, (List.filter_sublist _).nodup ERROR_PATTERNS_nodup, ?_⟩
  intro e
  simp [identify_patterns, List.mem_filter]

/-- C4: on a text none of whose cleaned lines holds a fault keyword,
extract_error_context returns the full cleaned line sequence unchanged. -/
theorem extract_error_context_id_on_clean (text : List Char)
    (h : ∀ l ∈ cleanLines text, hasFaultKeyword l = false) :
    extract_error_context text = cleanLines text := by
  have hz : concatMap
      (fun i => if hasFaultKeyword ((cleanLines text).getD i []) then
        windowSlice (cleanLines text) i else [])
      (List.range (cleanLines text).length) = [] := by
    apply concatMap_eq_nil
    intro i hi
    have hlt : i < (cleanLines text).length := List.mem_range.mp hi
    have hmem : (cleanLines text).getD i [] ∈ cleanLines text := by
      rw [List.getD_eq_getElem?_getD, List.getElem?_eq_getElem hlt]
      exact List.getElem_mem hlt
    rw [h _ hmem]
    simp
  simp only [extract_error_context]
  rw [hz]
  rfl

/-- Witness for C4 at a concrete fault-free log text. -/
theorem extract_error_context_id_on_clean_witness :
    (∀ l ∈ cleanLines "all good\nsystem nominal".data, hasFaultKeyword l = false) ∧
    extract_error_context "all good\nsystem nominal".data
      = cleanLines "all good\nsystem nominal".data :=
  ⟨by decide, extract_error_context_id_on_clean _ (by decide)⟩

/-- C5 counterexample: the single-space text is a non-empty input on which
extract_error_context returns the empty sequence, because the whitespace
line is stripped away before the keyword scan. -/
theorem extract_error_context_empty_on_blank :
    " ".data ≠ [] ∧ extract_error_context " ".data = [] := by decide

/-- C5 amended: whenever the cleaned line sequence of the input is
non-empty (the input has a character that is neither whitespace nor a line
break), extract_error_context returns a non-empty sequence; an empty result
occurs only when the cleaned line sequence is empty. -/
theorem extract_error_context_nonempty (text : List Char)
    (h : cleanLines text ≠ []) : extract_error_context text ≠ [] := by
  simp only [extract_error_context]
  split
  · exact h
  · next hne =>
    intro hcontra
    exact hne (by rw [hcontra]; rfl)

/-- Witness for the amended C5 at a concrete text. -/
theorem extract_error_context_nonempty_witness :
    cleanLines "hello".data ≠ [] ∧ extract_error_context "hello".data ≠ [] :=
  ⟨by decide, extract_error_context_nonempty _ (by decide)⟩

/-- C6: get_next_steps always returns exactly 4 steps, chosen by
case-insensitive keyword lookup on the label in the fixed priority order
helm, kots, kubernetes, network, permission, resource, with the generic
fallback when no keyword occurs; the first matching keyword alone
determines the result. -/
theorem get_next_steps_spec (rc : List Char) :
    (get_next_steps rc).length = 4 ∧
    (containsSub "helm".data (lowerL rc) = true →
      get_next_steps rc =
        ["Check Helm chart version compatibility".data,
         "Verify Helm repository access".data,
         "Review Helm values and configuration".data,
         "Check Kubernetes version requirements".data]) ∧
    (containsSub "helm".data (lowerL rc) = false →
     containsSub "kots".data (lowerL rc) = true →
      get_next_steps rc =
        ["Verify KOTS license validity".data,
         "Check KOTS version compatibility".data,
         "Review KOTS configuration".data,
         "Check application requirements".data]) ∧
    (containsSub "helm".data (lowerL rc) = false →
     containsSub "kots".data (lowerL rc) = false →
     containsSub "kubernetes".data (lowerL rc) = true →
      get_next_steps rc =
        ["Check Kubernetes cluster health".data,
         "Verify resource availability".data,
         "Review pod and service status".data,
         "Check network policies".data]) ∧
    (containsSub "helm".data (lowerL rc) = false →
     containsSub "kots".data (lowerL rc) = false →
     containsSub "kubernetes".data (lowerL rc) = false →
     containsSub "network".data (lowerL rc) = true →
      get_next_steps rc =
        ["Check network connectivity".data,
         "Verify firewall settings".data,
         "Confirm service is running on the expected port".data,
         "Check network policies".data]) ∧
    (containsSub "helm".data (lowerL rc) = false →
     containsSub "kots".data (lowerL rc) = false →
     containsSub "kubernetes".data (lowerL rc) = false →
     containsSub "network".data (lowerL rc) = false →
     containsSub "permission".data (lowerL rc) = true →
      get_next_steps rc =
        ["Verify user permissions".data,
         "Check RBAC settings".data,
         "Review security contexts".data,
         "Check service account permissions".data]) ∧
    (containsSub "helm".data (lowerL rc) = false →
     containsSub "kots".data (lowerL rc) = false →
     containsSub "kubernetes".data (lowerL rc) = false →
     containsSub "network".data (lowerL rc) = false →
     containsSub "permission".data (lowerL rc) = false →
     containsSub "resource".data (lowerL rc) = true →
      get_next_steps rc =
        ["Check system resources (CPU, memory, disk)".data,
         "Review resource limits and quotas".data,
         "Consider scaling resources".data,
         "Check node capacity".data]) ∧
    ((∀ k ∈ remediationKeywords, containsSub k (lowerL rc) = false) →
      get_next_steps rc =
        ["Review the error context for more details".data,
         "Check system logs for related errors".data,
         "Verify configuration settings".data,
         "Check application status".data]) := by
  refine ⟨?_, ?_, ?_, ?_, ?_, ?_, ?_, ?_⟩
  · unfold get_next_steps
    repeat' split
    all_goals rfl
  · intro h1; simp [get_next_steps, h1]
  · intro h1 h2; simp [get_next_steps, h1, h2]
  · intro h1 h2 h3; simp [get_next_steps, h1, h2, h3]
  · intro h1 h2 h3 h4; simp [get_next_steps, h1, h2, h3, h4]
  · intro h1 h2 h3 h4 h5; simp [get_next_steps, h1, h2, h3, h4, h5]
  · intro h1 h2 h3 h4 h5 h6; simp [get_next_steps, h1, h2, h3, h4, h5, h6]
  · intro hall
    have h1 := hall "helm".data (by simp [remediationKeywords])
    have h2 := hall "kots".data (by simp [remediationKeywords])
    have h3 := hall "kubernetes".data (by simp [remediationKeywords])
    have h4 := hall "network".data (by simp [remediationKeywords])
    have h5 := hall "permission".data (by simp [remediationKeywords])
    have h6 := hall "resource".data (by simp [remediationKeywords])
    simp [get_next_steps, h1, h2, h3, h4, h5, h6]

/-- Witness for C6: a label holding kots but not helm gets the KOTS
steps. -/
theorem get_next_steps_spec_witness :
    containsSub "helm".data (lowerL "KOTS upgrade failure".data) = false ∧
    containsSub "kots".data (lowerL "KOTS upgrade failure".data) = true ∧
    get_next_steps "KOTS upgrade failure".data =
      ["Verify KOTS license validity".data,
       "Check KOTS version compatibility".data,
       "Review KOTS configuration".data,
       "Check application requirements".data] :=
  ⟨by decide, by decide,
    (get_next_steps_spec "KOTS upgrade failure".data).2.2.1 (by decide) (by decide)⟩

/-- C1: whenever analyze_log returns a Diagnosis, its root cause is the
label of the first catalog entry, in catalog order, that matched the text
and whose label holds helm or kots; when no matched label does, the label
of the first matched entry in catalog order; and the literal Unknown issue
when no entry matched at all. -/
theorem analyze_log_root_cause_resolution
    (clf : List Char → Except (List Char) (List Char)) (text : List Char) (d : Diagnosis)
    (h : analyze_log clf text = .ok d) :
    d.root_cause =
      match (ERROR_PATTERNS.filter fun e => hkLabel e.2 && reSearch e.1 (lowerL text)).head? with
      | some e => e.2
      | none =>
        match (ERROR_PATTERNS.filter fun e => reSearch e.1 (lowerL text)).head? with
        | some e => e.2
        | none => "Unknown issue".data := by
  have hfil : ERROR_PATTERNS.filter (fun e => hkLabel e.2 && reSearch e.1 (lowerL text))
      = (identify_patterns text).filter (fun m => hkLabel m.2) := by
    rw [identify_patterns, List.filter_filter]
  have hall : ERROR_PATTERNS.filter (fun e => reSearch e.1 (lowerL text))
      = identify_patterns text := rfl
  simp only [analyze_log] at h
  cases hc : clf (List.intercalate ['\n'] (extract_error_context text)) with
  | error e => rw [hc] at h; simp at h
  | ok conf =>
    rw [hc] at h
    simp only [Except.ok.injEq] at h
    subst h
    rw [hfil, hall]
    cases hpm : identify_patterns text with
    | nil => simp [hpm]
    | cons m0 rest =>
      simp only [hpm]
      cases hfk : (m0 :: rest).filter (fun m => hkLabel m.2) with
      | nil => simp [hfk]
      | cons h0 hrest => simp [hfk]

/-- Witness for C1: on a log where the first matched catalog entry already
carries a helm label, the returned root cause is that label. -/
theorem analyze_log_root_cause_resolution_witness :
    (Diagnosis.mk "Helm release installation or upgrade failed".data "0.50".data
        ["Check Helm chart version compatibility".data,
         "Verify Helm repository access".data,
         "Review Helm values and configuration".data,
         "Check Kubernetes version requirements".data]
        "helm release failed".data).root_cause =
      match (ERROR_PATTERNS.filter fun e =>
          hkLabel e.2 && reSearch e.1 (lowerL "helm release failed".data)).head? with
      | some e => e.2
      | none =>
        match (ERROR_PATTERNS.filter fun e =>
            reSearch e.1 (lowerL "helm release failed".data)).head? with
        | some e => e.2
        | none => "Unknown issue".data :=
  analyze_log_root_cause_resolution (fun _ => Except.ok "0.50".data)
    "helm release failed".data
    (Diagnosis.mk "Helm release installation or upgrade failed".data "0.50".data
        ["Check Helm chart version compatibility".data,
         "Verify Helm repository access".data,
         "Review Helm values and configuration".data,
         "Check Kubernetes version requirements".data]
        "helm release failed".data)
    (by rfl)

/-- C2: the source wraps the tokenizer and model call of analyze_log
(model_loader.py lines 146 to 153) in no exception handler, so an
inference error leaves analyze_log as that error instead of a Diagnosis
with the sentinel confidence 0.00: the failure propagates out of the
pipeline, contradicting the documented failure mode. -/
theorem analyze_log_propagates_inference_error (msg text : List Char) :
    analyze_log (fun _ => Except.error msg) text = Except.error msg := rfl

/-- C9: the root cause, next steps and context of a returned Diagnosis are
a function of the input text alone: two successful runs on the same text
under different classifiers agree on all three fields, so the confidence is
the only model-derived field. -/
theorem analyze_log_model_noninterference
    (f g : List Char → Except (List Char) (List Char)) (text : List Char)
    (d₁ d₂ : Diagnosis)
    (h₁ : analyze_log f text = .ok d₁) (h₂ : analyze_log g text = .ok d₂) :
    d₁.root_cause = d₂.root_cause ∧ d₁.next_steps = d₂.next_steps ∧
    d₁.context = d₂.context := by
  simp only [analyze_log] at h₁ h₂
  cases hf : f (List.intercalate ['\n'] (extract_error_context text)) with
  | error e => rw [hf] at h₁; simp at h₁
  | ok c₁ =>
    cases hg : g (List.intercalate ['\n'] (extract_error_context text)) with
    | error e => rw [hg] at h₂; simp at h₂
    | ok c₂ =>
      rw [hf] at h₁
      rw [hg] at h₂
      simp only [Except.ok.injEq] at h₁ h₂
      subst h₁
      subst h₂
      exact ⟨rfl, rfl, rfl⟩

/-- Witness for C9: two classifiers returning different confidences on the
same text yield identical root cause, next steps and context. -/
theorem analyze_log_model_noninterference_witness :
    (Diagnosis.mk "Network connectivity issue".data "0.10".data
        ["Check network connectivity".data,
         "Verify firewall settings".data,
         "Confirm service is running on the expected port".data,
         "Check network policies".data]
        "connection refused by host".data).root_cause =
      (Diagnosis.mk "Network connectivity issue".data "0.90".data
        ["Check network connectivity".data,
         "Verify firewall settings".data,
         "Confirm service is running on the expected port".data,
         "Check network policies".data]
        "connection refused by host".data).root_cause ∧
    (Diagnosis.mk "Network connectivity issue".data "0.10".data
        ["Check network connectivity".data,
         "Verify firewall settings".data,
         "Confirm service is running on the expected port".data,
         "Check network policies".data]
        "connection refused by host".data).next_steps =
      (Diagnosis.mk "Network connectivity issue".data "0.90".data
        ["Check network connectivity".data,
         "Verify firewall settings".data,
         "Confirm service is running on the expected port".data,
         "Check network policies".data]
        "connection refused by host".data).next_steps ∧
    (Diagnosis.mk "Network connectivity issue".data "0.10".data
        ["Check network connectivity".data,
         "Verify firewall settings".data,
         "Confirm service is running on the expected port".data,
         "Check network policies".data]
        "connection refused by host".data).context =
      (Diagnosis.mk "Network connectivity issue".data "0.90".data
        ["Check network connectivity".data,
         "Verify firewall settings".data,
         "Confirm service is running on the expected port".data,
         "Check network policies".data]
        "connection refused by host".data).context :=
  analyze_log_model_noninterference
    (fun _ => Except.ok "0.10".data) (fun _ => Except.ok "0.90".data)
    "connection refused by host".data _ _ (by rfl) (by rfl)

/-- C10 counterexample: the text that matches only the Helm-group
signature chart requires kubernetes version has the label Kubernetes
version compatibility issue, which holds neither helm nor kots, yet
analyze_log returns the kubernetes cluster-health steps for it, not the
generic fallback steps the claim asserts. -/
theorem analyze_log_group_lookup_counterexample :
    ((identify_patterns "chart requires kubernetes version".data).map Prod.snd
      = ["Kubernetes version compatibility issue".data]) ∧
    hkLabel "Kubernetes version compatibility issue".data = false ∧
    ((analyze_log (fun _ => Except.ok "0.50".data)
        "chart requires kubernetes version".data).toOption.map Diagnosis.next_steps
      = some
        ["Check Kubernetes cluster health".data,
         "Verify resource availability".data,
         "Review pod and service status".data,
         "Check network policies".data]) ∧
    (["Check Kubernetes cluster health".data,
      "Verify resource availability".data,
      "Review pod and service status".data,
      "Check network policies".data]
      ≠
     ["Review the error context for more details".data,
      "Check system logs for related errors".data,
      "Verify configuration settings".data,
      "Check application status".data]) :=
  ⟨by decide, by decide, by rfl, by decide⟩

/-- C10 amended: the domain-priority and remediation lookups inspect only
the root-cause label text, never the signature or its catalog group: when
no matched label holds helm or kots, no override is applied and the root
cause is the first matched label in catalog order, and when that label
also holds none of the remediation keywords, the next steps are the
generic fallback list. -/
theorem analyze_log_label_only_lookup
    (clf : List Char → Except (List Char) (List Char)) (text : List Char) (d : Diagnosis)
    (m0 : Pattern × List Char) (rest : List (Pattern × List Char))
    (h : analyze_log clf text = .ok d)
    (hpm : identify_patterns text = m0 :: rest)
    (hnohk : ∀ e ∈ identify_patterns text, hkLabel e.2 = false) :
    d.root_cause = m0.2 ∧
    ((∀ k ∈ remediationKeywords, containsSub k (lowerL m0.2) = false) →
      d.next_steps =
        ["Review the error context for more details".data,
         "Check system logs for related errors".data,
         "Verify configuration settings".data,
         "Check application status".data]) := by
  simp only [analyze_log] at h
  cases hc : clf (List.intercalate ['\n'] (extract_error_context text)) with
  | error e => rw [hc] at h; simp at h
  | ok conf =>
    rw [hc] at h
    simp only [Except.ok.injEq] at h
    subst h
    have hfk : (identify_patterns text).filter (fun m => hkLabel m.2) = [] :=
      List.filter_eq_nil_iff.mpr (fun a ha => by simp [hnohk a ha])
    have hroot : (match identify_patterns text with
        | [] => "Unknown issue".data
        | m1 :: _ =>
          match (identify_patterns text).filter (fun m => hkLabel m.2) with
          | h1 :: _ => h1.2
          | [] => m1.2) = m0.2 := by
      rw [hpm] at hfk
      rw [hpm, hfk]
    refine ⟨hroot, ?_⟩
    intro h6
    have k1 := h6 "helm".data (by simp [remediationKeywords])
    have k2 := h6 "kots".data (by simp [remediationKeywords])
    have k3 := h6 "kubernetes".data (by simp [remediationKeywords])
    have k4 := h6 "network".data (by simp [remediationKeywords])
    have k5 := h6 "permission".data (by simp [remediationKeywords])
    have k6 := h6 "resource".data (by simp [remediationKeywords])
    have hgen : get_next_steps m0.2 =
        ["Review the error context for more details".data,
         "Check system logs for related errors".data,
         "Verify configuration settings".data,
         "Check application status".data] := by
      simp [get_next_steps, k1, k2, k3, k4, k5, k6]
    exact (congrArg get_next_steps hroot).trans hgen

/-- Witness for the amended C10: the text chart abc not_found matches only
the signature chart not found; its label holds no keyword at all, so the
root cause is that label with the generic fallback steps. -/
theorem analyze_log_label_only_lookup_witness :
    (Diagnosis.mk "Chart not found in repository".data "0.50".data
        ["Review the error context for more details".data,
         "Check system logs for related errors".data,
         "Verify configuration settings".data,
         "Check application status".data]
        "chart abc not_found".data).root_cause = "Chart not found in repository".data ∧
    (Diagnosis.mk "Chart not found in repository".data "0.50".data
        ["Review the error context for more details".data,
         "Check system logs for related errors".data,
         "Verify configuration settings".data,
         "Check application status".data]
        "chart abc not_found".data).next_steps =
      ["Review the error context for more details".data,
       "Check system logs for related errors".data,
       "Verify configuration settings".data,
       "Check application status".data] := by
  have H := analyze_log_label_only_lookup (fun _ => Except.ok "0.50".data)
    "chart abc not_found".data
    (Diagnosis.mk "Chart not found in repository".data "0.50".data
        ["Review the error context for more details".data,
         "Check system logs for related errors".data,
         "Verify configuration settings".data,
         "Check application status".data]
        "chart abc not_found".data)
    ([["chart".data, "not".data, "found".data]], "Chart not found in repository".data)
    []
    (by rfl) (by rfl) (by decide)
  exact ⟨H.1, H.2 (by decide)⟩

/-- Helper: the merged critical list is the source-wise critical
partition, in source iteration order. -/
theorem critical_issues_eq (embedded pods : List LogAnalysis) (syslog : Option LogAnalysis) :
    (analyze_all_logs embedded pods syslog).critical_issues =
      (embedded.filter fun l => isCriticalCause l.analysis.root_cause).map
          (criticalRecord "embedded-cluster".data) ++
        (pods.filter fun l => isCriticalCause l.analysis.root_cause).map
          (criticalRecord "pods".data) ++
        (syslog.toList.filter fun l => isCriticalCause l.analysis.root_cause).map
          (criticalRecord "syslog".data) := by
  cases syslog <;> simp [analyze_all_logs, partitionLogs]

/-- Helper: the merged warning list is the source-wise warning partition,
in source iteration order. -/
theorem warnings_eq (embedded pods : List LogAnalysis) (syslog : Option LogAnalysis) :
    (analyze_all_logs embedded pods syslog).warnings =
      (embedded.filter fun l => !isCriticalCause l.analysis.root_cause).map
          (warningRecord "embedded-cluster".data) ++
        (pods.filter fun l => !isCriticalCause l.analysis.root_cause).map
          (warningRecord "pods".data) ++
        (syslog.toList.filter fun l => !isCriticalCause l.analysis.root_cause).map
          (warningRecord "syslog".data) := by
  cases syslog <;> simp [analyze_all_logs, partitionLogs]

/-- C7: during aggregation a Diagnosis is placed in critical_issues
exactly when its root cause holds error or fail as a case-insensitive
substring, and in warnings otherwise; the root cause Unknown issue holds
neither, so it always lands among the warnings. -/
theorem analyze_all_logs_classification (embedded pods : List LogAnalysis)
    (syslog : Option LogAnalysis) :
    (∀ r ∈ (analyze_all_logs embedded pods syslog).critical_issues,
      isCriticalCause r.issue = true) ∧
    (∀ r ∈ (analyze_all_logs embedded pods syslog).warnings,
      isCriticalCause r.issue = false) ∧
    (∀ log ∈ embedded, isCriticalCause log.analysis.root_cause = true →
      criticalRecord "embedded-cluster".data log
        ∈ (analyze_all_logs embedded pods syslog).critical_issues) ∧
    (∀ log ∈ embedded, isCriticalCause log.analysis.root_cause = false →
      warningRecord "embedded-cluster".data log
        ∈ (analyze_all_logs embedded pods syslog).warnings) ∧
    (∀ log ∈ pods, isCriticalCause log.analysis.root_cause = true →
      criticalRecord "pods".data log
        ∈ (analyze_all_logs embedded pods syslog).critical_issues) ∧
    (∀ log ∈ pods, isCriticalCause log.analysis.root_cause = false →
      warningRecord "pods".data log
        ∈ (analyze_all_logs embedded pods syslog).warnings) ∧
    (∀ log ∈ syslog.toList, isCriticalCause log.analysis.root_cause = true →
      criticalRecord "syslog".data log
        ∈ (analyze_all_logs embedded pods syslog).critical_issues) ∧
    (∀ log ∈ syslog.toList, isCriticalCause log.analysis.root_cause = false →
      warningRecord "syslog".data log
        ∈ (analyze_all_logs embedded pods syslog).warnings) ∧
    isCriticalCause "Unknown issue".data = false := by
  have hc := critical_issues_eq embedded pods syslog
  have hw := warnings_eq embedded pods syslog
  refine ⟨?_, ?_, ?_, ?_, ?_, ?_, ?_, ?_, by decide⟩
  · intro r hr
    rw [hc] at hr
    simp only [List.mem_append, List.mem_map, List.mem_filter] at hr
    rcases hr with (⟨l, ⟨-, hcrit⟩, rfl⟩ | ⟨l, ⟨-, hcrit⟩, rfl⟩) | ⟨l, ⟨-, hcrit⟩, rfl⟩
    all_goals simpa [criticalRecord] using hcrit
  · intro r hr
    rw [hw] at hr
    simp only [List.mem_append, List.mem_map, List.mem_filter] at hr
    rcases hr with (⟨l, ⟨-, hcrit⟩, rfl⟩ | ⟨l, ⟨-, hcrit⟩, rfl⟩) | ⟨l, ⟨-, hcrit⟩, rfl⟩
    all_goals simpa [warningRecord] using hcrit
  · intro l hl hcritT
    rw [hc]
    simp only [List.mem_append, List.mem_map, List.mem_filter]
    exact Or.inl (Or.inl ⟨l, ⟨hl, hcritT⟩, rfl⟩)
  · intro l hl hcritF
    rw [hw]
    simp only [List.mem_append, List.mem_map, List.mem_filter]
    exact Or.inl (Or.inl ⟨l, ⟨hl, by simp [hcritF]⟩, rfl⟩)
  · intro l hl hcritT
    rw [hc]
    simp only [List.mem_append, List.mem_map, List.mem_filter]
    exact Or.inl (Or.inr ⟨l, ⟨hl, hcritT⟩, rfl⟩)
  · intro l hl hcritF
    rw [hw]
    simp only [List.mem_append, List.mem_map, List.mem_filter]
    exact Or.inl (Or.inr ⟨l, ⟨hl, by simp [hcritF]⟩, rfl⟩)
  · intro l hl hcritT
    rw [hc]
    simp only [List.mem_append, List.mem_map, List.mem_filter]
    exact Or.inr ⟨l, ⟨hl, hcritT⟩, rfl⟩
  · intro l hl hcritF
    rw [hw]
    simp only [List.mem_append, List.mem_map, List.mem_filter]
    exact Or.inr ⟨l, ⟨hl, by simp [hcritF]⟩, rfl⟩

/-- Witness for C7: a Helm upgrade failure Diagnosis (holds fail) lands in
critical_issues; an Unknown issue Diagnosis from the syslog source lands in
warnings. -/
theorem analyze_all_logs_classification_witness :
    criticalRecord "embedded-cluster".data
        (LogAnalysis.mk "f1.log".data
          (Diagnosis.mk "Helm upgrade failure".data "0.80".data [] "c1".data))
      ∈ (analyze_all_logs
          [LogAnalysis.mk "f1.log".data
            (Diagnosis.mk "Helm upgrade failure".data "0.80".data [] "c1".data)]
          []
          (some (LogAnalysis.mk "syslog".data
            (Diagnosis.mk "Unknown issue".data "0.30".data [] "c2".data)))).critical_issues ∧
    warningRecord "syslog".data
        (LogAnalysis.mk "syslog".data
          (Diagnosis.mk "Unknown issue".data "0.30".data [] "c2".data))
      ∈ (analyze_all_logs
          [LogAnalysis.mk "f1.log".data
            (Diagnosis.mk "Helm upgrade failure".data "0.80".data [] "c1".data)]
          []
          (some (LogAnalysis.mk "syslog".data
            (Diagnosis.mk "Unknown issue".data "0.30".data [] "c2".data)))).warnings := by
  have H := analyze_all_logs_classification
    [LogAnalysis.mk "f1.log".data
      (Diagnosis.mk "Helm upgrade failure".data "0.80".data [] "c1".data)]
    []
    (some (LogAnalysis.mk "syslog".data
      (Diagnosis.mk "Unknown issue".data "0.30".data [] "c2".data)))
  exact ⟨H.2.2.1 _ (by simp) (by decide), H.2.2.2.2.2.2.2.1 _ (by simp) (by decide)⟩

/-- C8: the aggregate status is unhealthy exactly when critical_issues is
non-empty and healthy exactly when it is empty; the two counts equal the
lengths of their sequences; log_sources_available equals the number of
entries of log_sources_analyzed. -/
theorem analyze_all_logs_system_status (embedded pods : List LogAnalysis)
    (syslog : Option LogAnalysis) :
    ((analyze_all_logs embedded pods syslog).system_status.status = "unhealthy".data
      ↔ (analyze_all_logs embedded pods syslog).critical_issues ≠ []) ∧
    ((analyze_all_logs embedded pods syslog).system_status.status = "healthy".data
      ↔ (analyze_all_logs embedded pods syslog).critical_issues = []) ∧
    (analyze_all_logs embedded pods syslog).system_status.critical_issues_count
      = (analyze_all_logs embedded pods syslog).critical_issues.length ∧
    (analyze_all_logs embedded pods syslog).system_status.warnings_count
      = (analyze_all_logs embedded pods syslog).warnings.length ∧
    (analyze_all_logs embedded pods syslog).system_status.log_sources_available
      = (analyze_all_logs embedded pods syslog).log_sources_analyzed.length := by
  have hstat : (analyze_all_logs embedded pods syslog).system_status.status
      = (if (analyze_all_logs embedded pods syslog).critical_issues.isEmpty
         then "healthy".data else "unhealthy".data) := rfl
  have hne : ("healthy".data : List Char) ≠ "unhealthy".data := by decide
  refine ⟨?_, ?_, rfl, rfl, rfl⟩
  · rw [hstat]
    cases hE : (analyze_all_logs embedded pods syslog).critical_issues.isEmpty
    · simp only [Bool.false_eq_true, if_false]
      simp [List.isEmpty_eq_false] at hE
      simp [hE]
    · simp only [if_true]
      simp only [List.isEmpty_eq_true] at hE
      simp [hE, hne.symm]
  · rw [hstat]
    cases hE : (analyze_all_logs embedded pods syslog).critical_issues.isEmpty
    · simp only [Bool.false_eq_true, if_false]
      simp [List.isEmpty_eq_false] at hE
      simp [hE, hne]
    · simp only [if_true]
      simp only [List.isEmpty_eq_true] at hE
      simp [hE]
